import Mathlib

/-!
Verification of the event-ingestion and scheduling engine of the wisp actor.
Shallow embedding of `src/agent.ts` and `src/jetstream.ts`: the relevance
filter, tracked-thread table, cursor persistence, alarm scheduling and the
bounded tool loop, with theorems settling the claims of the specification.
-/

set_option maxHeartbeats 1000000
set_option maxRecDepth 10000

namespace Wisp

/-- JS `String.prototype.startsWith(pre)`: the characters of the receiver
begin with the characters of `pre`. Modelled structurally over character
lists. -/
def strStartsWith (s pre : String) : Bool := pre.data.isPrefixOf s.data

/- Constants from src/agent.ts lines 24-27 and src/jetstream.ts line 40. -/

def REFLECTION_INTERVAL : Nat := 6 * 60 * 60 * 1000

def THINKING_INTERVAL : Nat := 2 * 60 * 60 * 1000

def CURSOR_PERSIST_INTERVAL : Nat := 30000

def DM_POLL_INTERVAL : Nat := 60000

/-- 10 seconds in microseconds (jetstream.ts line 40). -/
def SAFETY_MARGIN : Int := 10000000

/-- A rich-text facet feature as read by `isRelevantEvent`
(agent.ts line 267: a `$type` string and an optional `did`). `ftype` embeds
the JSON field `$type`. -/
structure FacetFeature where
  ftype : String
  did : Option String
deriving DecidableEq

/-- A facet: an object with an optional `features` array (agent.ts line 266). -/
structure Facet where
  features : Option (List FacetFeature)
deriving DecidableEq

/-- The `reply` field of a post record as read by the agent
(optional `parent` and `root` branches each holding a `uri`, agent.ts line 283).
A missing branch and a branch with a missing `uri` behave identically under
the optional-chained reads, so each is collapsed to one `Option String`. -/
structure ReplyRef where
  parentUri : Option String
  rootUri : Option String
deriving DecidableEq

/-- The fields of the opaque `record` map the agent reads: `subject` as a
string (follow), `subject.uri` (like), `facets` and `reply` (post). The two
typed views of `subject` are embedded as two optional fields. -/
structure EventRecord where
  subjectDid : Option String
  subjectUri : Option String
  facets : Option (List Facet)
  reply : Option ReplyRef
deriving DecidableEq

/-- Commit operation (jetstream.ts line 12). -/
inductive Operation
  | create
  | update
  | delete
deriving DecidableEq

/-- The `commit` payload of a Jetstream event (jetstream.ts lines 10-17). -/
structure Commit where
  rev : String
  operation : Operation
  collection : String
  rkey : String
  record : Option EventRecord
  cid : Option String
deriving DecidableEq

/-- Event kind (jetstream.ts line 9). -/
inductive EventKind
  | commit
  | identity
  | account
deriving DecidableEq

/-- A Jetstream event (jetstream.ts lines 6-18). `time_us` is the logical
time in unix microseconds. -/
structure JetstreamEvent where
  did : String
  time_us : Nat
  kind : EventKind
  commit : Option Commit
deriving DecidableEq

/-- A row of the `tracked_threads` SQLite table
(`rootUri TEXT PRIMARY KEY, lastActivity INTEGER`, schema migration). -/
structure TrackedThread where
  rootUri : String
  lastActivity : Nat
deriving DecidableEq

/-- The SQL lookup `SELECT rootUri FROM tracked_threads WHERE rootUri = ?` returns a
non-empty result (agent.ts lines 292-294). -/
def containsRoot (tbl : List TrackedThread) (root : String) : Bool :=
  tbl.any (fun r => r.rootUri == root)

/-- The AT-URI author pattern, `at://` then the agent DID then `/`, used by the
`startsWith` checks (agent.ts lines 260, 286, 288). -/
def selfUriBase (selfDid : String) : String := "at://" ++ selfDid ++ "/"

/-- The facet scan of `isRelevantEvent` (agent.ts lines 269-280): some facet
has a feature whose `$type` is the mention type and whose `did` equals the
agent DID. -/
def mentionsSelf (facets : List Facet) (selfDid : String) : Bool :=
  facets.any fun f =>
    (f.features.getD []).any fun feat =>
      feat.ftype == "app.bsky.richtext.facet#mention" && feat.did == some selfDid

/-- Function `isRelevantEvent` (agent.ts lines 248-302). `tracked` is the current
contents of the `tracked_threads` table consulted by the SQL lookup. -/
def isRelevantEvent (selfDid : String) (tracked : List TrackedThread)
    (event : JetstreamEvent) : Bool :=
  match event.kind with
  | EventKind.commit =>
    match event.commit with
    | none => false
    | some c =>
      match c.operation with
      | Operation.create =>
        if c.collection == "app.bsky.graph.follow" then
          (c.record.bind EventRecord.subjectDid) == some selfDid
        else if c.collection == "app.bsky.feed.like" then
          match c.record.bind EventRecord.subjectUri with
          | some uri => strStartsWith uri (selfUriBase selfDid)
          | none => false
        else if c.collection == "app.bsky.feed.post" then
          match c.record with
          | some record =>
            if event.did == selfDid then false
            else if mentionsSelf (record.facets.getD []) selfDid then true
            else
              match record.reply with
              | some reply =>
                if (reply.parentUri.map
                    (fun u => strStartsWith u (selfUriBase selfDid))).getD false then
                  true
                else if (reply.rootUri.map
                    (fun u => strStartsWith u (selfUriBase selfDid))).getD false then
                  true
                else
                  match reply.rootUri with
                  | some rootUri => containsRoot tracked rootUri
                  | none => false
              | none => false
          | none => false
        else
          false
      | _ => false
  | _ => false

/-- The SQL upsert `INSERT INTO tracked_threads (rootUri, lastActivity) VALUES (?, ?)
ON CONFLICT(rootUri) DO UPDATE SET lastActivity = ?` (agent.ts lines
336-338): update the matching row if the key exists, else append a row. -/
def upsertThread (tbl : List TrackedThread) (root : String) (t : Nat) :
    List TrackedThread :=
  if containsRoot tbl root then
    tbl.map (fun r => if r.rootUri == root then { r with lastActivity := t } else r)
  else
    tbl ++ [{ rootUri := root, lastActivity := t }]

/-- The tracked-threads insertion decision inside `handleEvent` (agent.ts
lines 328-340): returns the reply-root URI that gets upserted, if any. The
guard is `kind === "commit" && commit.collection === "app.bsky.feed.post"`
and the record carrying `reply.root.uri`; the commit operation is not
consulted. -/
def handleEventUpsertRoot (event : JetstreamEvent) : Option String :=
  match event.kind with
  | EventKind.commit =>
    match event.commit with
    | some c =>
      if c.collection == "app.bsky.feed.post" then
        c.record.bind fun r => r.reply.bind ReplyRef.rootUri
      else none
    | none => none
  | _ => none

/-- Observable durable/processing effects of the event path of the agent. The
`eventProcessed t` action marks the completion of `handleEvent` for the
event with `time_us = t` (end of the `await this.handleEvent(event)` call at
agent.ts line 238); `persistCursor v` is the durable
`storage.put("jetstream_cursor", v)` at agent.ts line 513. -/
inductive AgentAction
  | persistCursor (v : Nat)
  | eventProcessed (timeUs : Nat)
deriving DecidableEq

/-- In-memory and durable cursor state of the `Wisp` object. `persisted` is
the durable `jetstream_cursor` value; `lastProcessed` records the `time_us`
of the most recently fully handled event (the observation that the cursor
invariant of the spec speaks about; it corresponds to no stored field). -/
structure AgentState where
  cursor : Option Nat
  lastCursorPersist : Nat
  persisted : Option Nat
  lastProcessed : Option Nat
  eventsReceived : Nat
  eventsHandled : Nat
deriving DecidableEq

/-- The initial cursor state of the agent (fresh object, no stored cursor). -/
def initAgentState : AgentState :=
  { cursor := none, lastCursorPersist := 0, persisted := none,
    lastProcessed := none, eventsReceived := 0, eventsHandled := 0 }

/-- Function `maybePersistCursor` (agent.ts lines 508-516): if more than
`CURSOR_PERSIST_INTERVAL` elapsed since the last persist, record the persist
time and, when the in-memory cursor is truthy (present and nonzero in JS),
write it durably. Nat subtraction truncates at zero exactly where the JS
difference would be negative, and both fail the `> interval` test there. -/
def maybePersistCursor (st : AgentState) (now : Nat) :
    AgentState × List AgentAction :=
  if now - st.lastCursorPersist > CURSOR_PERSIST_INTERVAL then
    let st1 := { st with lastCursorPersist := now }
    match st1.cursor with
    | some v =>
      if v ≠ 0 then ({ st1 with persisted := some v }, [AgentAction.persistCursor v])
      else (st1, [])
    | none => (st1, [])
  else
    (st, [])

/-- The `onEvent` handler installed by `connectJetstream` (agent.ts lines
230-240): set the in-memory cursor to the `time_us` of the event, count it, call
`maybePersistCursor`, then — if the event is relevant — run `handleEvent`
to completion. The in-memory EPS counters do not interact with the cursor
and are elided. Returned actions are in program order. -/
def onEvent (selfDid : String) (tracked : List TrackedThread) (st : AgentState)
    (e : JetstreamEvent) (now : Nat) : AgentState × List AgentAction :=
  let st1 := { st with cursor := some e.time_us,
                       eventsReceived := st.eventsReceived + 1 }
  let p := maybePersistCursor st1 now
  if isRelevantEvent selfDid tracked e then
    ({ p.1 with eventsHandled := p.1.eventsHandled + 1,
                lastProcessed := some e.time_us },
     p.2 ++ [AgentAction.eventProcessed e.time_us])
  else
    (p.1, p.2)

/-- Run `onEvent` over a trace of `(event, wall-clock arrival time)` pairs,
concatenating the emitted actions. -/
def runOnEvents (selfDid : String) (tracked : List TrackedThread)
    (st : AgentState) : List (JetstreamEvent × Nat) → AgentState × List AgentAction
  | [] => (st, [])
  | (e, now) :: rest =>
    let p := onEvent selfDid tracked st e now
    let q := runOnEvents selfDid tracked p.1 rest
    (q.1, p.2 ++ q.2)

/-- Returns `true` on the durable cursor writes among the emitted actions. -/
def isPersistAction : AgentAction → Bool
  | AgentAction.persistCursor _ => true
  | _ => false

/-- Number of durable cursor writes in an action trace. -/
def countPersists (acts : List AgentAction) : Nat :=
  (acts.filter isPersistAction).length

/-- The persisted durable cursor never exceeds the in-memory cursor (the
`time_us` of the most recently received event). -/
def persistedLeCursor (st : AgentState) : Prop :=
  match st.persisted, st.cursor with
  | some v, some c => v ≤ c
  | some _, none => False
  | none, _ => True

/- The scheduler: the `alarm` handler of agent.ts lines 182-213. -/

/-- Side effects of one alarm tick, in program order. `persistLastReflection`
and `persistLastThinking` are the durable `storage.put` calls;
`runReflection` / `runThinking` mark the start of the task bodies. -/
inductive AlarmAction
  | reconnect
  | pollAdminDms
  | persistLastReflection (t : Nat)
  | runReflection
  | persistLastThinking (t : Nat)
  | runThinking
  | scheduleAlarm (t : Nat)
deriving DecidableEq

/-- Durable schedule state (`last_reflection` and `last_thinking` keys;
`none` when the key was never written, read back as `?? 0`). -/
structure SchedState where
  lastReflection : Option Nat
  lastThinking : Option Nat
deriving DecidableEq

/-- Function `runThinkingTime` (agent.ts lines 468-480): returns early when no
pending notes exist; otherwise persists `last_thinking = now` and runs the
thinking prompt. -/
def runThinkingTimeStep (st : SchedState) (pendingNotes : Bool) (now : Nat) :
    SchedState × List AlarmAction :=
  if pendingNotes then
    ({ st with lastThinking := some now },
     [AlarmAction.persistLastThinking now, AlarmAction.runThinking])
  else
    (st, [])

/-- One `alarm()` tick (agent.ts lines 182-213): reconnect when the socket
is not open, poll admin DMs, run reflection iff `now - last_reflection >
REFLECTION_INTERVAL` (persisting the timestamp first), evaluate thinking,
then re-arm the alarm. Nat subtraction truncates exactly where the JS
difference would be negative; both fail the strict comparison there. -/
def alarmTick (st : SchedState) (wsOpen pendingNotes : Bool) (now : Nat) :
    SchedState × List AlarmAction :=
  let reconnectActs := if wsOpen then [] else [AlarmAction.reconnect]
  let dmActs := [AlarmAction.pollAdminDms]
  let refl :=
    if now - st.lastReflection.getD 0 > REFLECTION_INTERVAL then
      ({ st with lastReflection := some now },
       [AlarmAction.persistLastReflection now, AlarmAction.runReflection])
    else (st, ([] : List AlarmAction))
  let think :=
    if now - refl.1.lastThinking.getD 0 > THINKING_INTERVAL then
      runThinkingTimeStep refl.1 pendingNotes now
    else (refl.1, [])
  (think.1,
   reconnectActs ++ dmActs ++ refl.2 ++ think.2 ++
     [AlarmAction.scheduleAlarm (now + DM_POLL_INTERVAL)])

/- The bounded tool loop. -/

/-- One step emitted by the external decision procedure: either a tool
invocation request or a final text answer (spec section 6). -/
inductive ModelStep
  | toolRequest (name : String)
  | finalAnswer (text : String)
deriving DecidableEq

/-- Modelled from the spec: the step loop inside `generateText` of the
external `ai` library, which is not part of the sources of this repository —
`runToolLoop` (agent.ts lines 348-398) only configures it with
`stopWhen: stepCountIs(8)`. The procedure is asked for step `i`; a tool
request is executed and the loop continues, a final answer ends the run;
the loop stops once the step budget is exhausted. -/
def runModelSteps (proc : Nat → ModelStep) : Nat → Nat → List ModelStep
  | 0, _ => []
  | Nat.succ fuel, i =>
    match proc i with
    | ModelStep.finalAnswer t => [ModelStep.finalAnswer t]
    | ModelStep.toolRequest n => ModelStep.toolRequest n :: runModelSteps proc fuel (i + 1)

/-- The step cap configured by `stopWhen: stepCountIs(8)` (agent.ts line 372). -/
def STEP_BUDGET : Nat := 8

/-- The whole tool loop run of `runToolLoop`: the decision procedure driven
for at most `STEP_BUDGET` steps. -/
def runToolLoop (proc : Nat → ModelStep) : List ModelStep :=
  runModelSteps proc STEP_BUDGET 0

/- The Jetstream WebSocket consumer (jetstream.ts). -/

/-- Observable effects of the WebSocket listeners in `connectJetstream`. -/
inductive WsEffect
  | logParseError
  | dispatchEvent (e : JetstreamEvent)
  | logWsError
  | closeConnection
  | invokeOnClose
deriving DecidableEq

/-- The `message` listener (jetstream.ts lines 46-55). `JSON.parse` of the
frame is a platform primitive; its outcome is the `frame` argument —
`some ev` when the frame parses, `none` when it throws. A parsed event is
dispatched to `config.onEvent`; a parse failure is caught and logged. -/
def onMessageEffects (frame : Option JetstreamEvent) : List WsEffect :=
  match frame with
  | some ev => [WsEffect.dispatchEvent ev]
  | none => [WsEffect.logParseError]

/-- The `error` listener (jetstream.ts lines 62-65): log, then close the
socket. -/
def onErrorEffects : List WsEffect :=
  [WsEffect.logWsError, WsEffect.closeConnection]

/-- The `close` listener (jetstream.ts lines 57-60): invoke
`config.onClose` (the disconnect callback of the agent). -/
def onCloseEffects : List WsEffect := [WsEffect.invokeOnClose]

/-- The resume position requested by `connectJetstream` (jetstream.ts lines
38-42): when `config.cursor` is truthy (present and nonzero in JS), the
`cursor` query parameter is set to `cursor - SAFETY_MARGIN`; otherwise no
cursor parameter is sent. -/
def requestCursorParam (cursor : Option Int) : Option Int :=
  match cursor with
  | some c => if c ≠ 0 then some (c - SAFETY_MARGIN) else none
  | none => none

/-- The rows of the table whose primary key equals `root`. -/
def keyRows (tbl : List TrackedThread) (root : String) : List TrackedThread :=
  tbl.filter (fun r => r.rootUri == root)

/-- A reply post by another user: its parent is a post of the agent and its
root is a post of a third user. -/
def otherAuthoredReply : JetstreamEvent :=
  { did := "did:plc:bob", time_us := 100, kind := EventKind.commit,
    commit := some
      { rev := "r", operation := Operation.create,
        collection := "app.bsky.feed.post", rkey := "k",
        record := some
          { subjectDid := none, subjectUri := none, facets := none,
            reply := some
              { parentUri := some "at://did:plc:wisp/app.bsky.feed.post/1",
                rootUri := some "at://did:plc:carol/app.bsky.feed.post/9" } },
        cid := none } }

/-- The commit of a reply post authored by the agent itself. -/
def selfAuthoredReplyCommit : Commit :=
  { rev := "r", operation := Operation.create,
    collection := "app.bsky.feed.post", rkey := "k",
    record := some
      { subjectDid := none, subjectUri := none, facets := none,
        reply := some
          { parentUri := some "at://did:plc:wisp/app.bsky.feed.post/1",
            rootUri := some "at://did:plc:wisp/app.bsky.feed.post/1" } },
    cid := none }

/-- A reply post authored by the agent itself. -/
def selfAuthoredReply : JetstreamEvent :=
  { did := "did:plc:wisp", time_us := 101, kind := EventKind.commit,
    commit := some selfAuthoredReplyCommit }

/-- Modelled from the spec (section 4.2, decision-table row for post-create
events): author differs from selfId AND (the record mentions selfId in its
facets OR the author of the reply parent is selfId OR the author of the
reply root is selfId OR the reply root is a key of the tracked-threads
table). -/
def postCreateRelevantSpec (selfDid : String) (tracked : List TrackedThread)
    (authorDid : String) (record : Option EventRecord) : Bool :=
  authorDid != selfDid &&
    (match record with
     | none => false
     | some rec =>
       mentionsSelf (rec.facets.getD []) selfDid ||
       (match rec.reply with
        | none => false
        | some rep =>
          (rep.parentUri.map (fun u => strStartsWith u (selfUriBase selfDid))).getD false ||
          (rep.rootUri.map (fun u => strStartsWith u (selfUriBase selfDid))).getD false ||
          (rep.rootUri.map (fun u => containsRoot tracked u)).getD false))

/-- The tracked-threads table holding the root of a conversation the agent
joined earlier. -/
def sampleTrackedTbl : List TrackedThread :=
  [{ rootUri := "at://did:plc:carol/app.bsky.feed.post/9", lastActivity := 5 }]

/-- The commit of a reply whose root and parent are a post of a third user:
neither addresses the agent. -/
def trackedReplyCommit : Commit :=
  { rev := "r", operation := Operation.create,
    collection := "app.bsky.feed.post", rkey := "k",
    record := some
      { subjectDid := none, subjectUri := none, facets := none,
        reply := some
          { parentUri := some "at://did:plc:carol/app.bsky.feed.post/9",
            rootUri := some "at://did:plc:carol/app.bsky.feed.post/9" } },
    cid := none }

/-- A reply by another user inside the tracked conversation. -/
def trackedReplyEvent : JetstreamEvent :=
  { did := "did:plc:bob", time_us := 100, kind := EventKind.commit,
    commit := some trackedReplyCommit }

/-- The state reached inside `onEvent` right after the in-memory cursor
update, before `maybePersistCursor`. -/
def recvState (st : AgentState) (e : JetstreamEvent) : AgentState :=
  { st with cursor := some e.time_us, eventsReceived := st.eventsReceived + 1 }

/-- A follow of the agent by another user: a relevant event, so `onEvent`
runs `handleEvent` for it. -/
def sampleFollowEvent (t : Nat) : JetstreamEvent :=
  { did := "did:plc:bob", time_us := t, kind := EventKind.commit,
    commit := some
      { rev := "r", operation := Operation.create,
        collection := "app.bsky.graph.follow", rkey := "k",
        record := some
          { subjectDid := some "did:plc:wisp", subjectUri := none,
            facets := none, reply := none },
        cid := none } }

theorem runModelSteps_length_le (proc : Nat → ModelStep) (fuel : Nat) :
    ∀ i, (runModelSteps proc fuel i).length ≤ fuel := by
  induction fuel with
  | zero => intro i; simp [runModelSteps]
  | succ n ih =>
    intro i
    unfold runModelSteps
    cases proc i with
    | finalAnswer t => simp
    | toolRequest nm => simpa using Nat.succ_le_succ (ih (i + 1))

/-- Claim C3: the tool loop executes at most the configured cap of 8 steps and
terminates, even against a decision procedure that requests a tool call at
every step. -/
theorem tool_loop_step_budget :
    (∀ proc : Nat → ModelStep, (runToolLoop proc).length ≤ STEP_BUDGET) ∧
    (runToolLoop (fun _ => ModelStep.toolRequest "post")).length = STEP_BUDGET := by
  refine ⟨fun proc => runModelSteps_length_le proc STEP_BUDGET 0, ?_⟩
  decide

/-- Claim C4 counterexample: a frame that fails to parse is only logged — the
message listener neither closes the connection nor fires the disconnect
callback, refuting the claim that malformed frames close the connection. -/
theorem malformed_frame_not_closed_cex :
    WsEffect.closeConnection ∉ onMessageEffects none ∧
    WsEffect.invokeOnClose ∉ onMessageEffects none := by
  decide

/-- Claim C4 amended: malformed frames are logged and dropped (the connection is
left open); transport errors close the connection, and the close listener
is what fires the disconnect callback. -/
theorem malformed_frame_dropped_error_closes :
    onMessageEffects none = [WsEffect.logParseError] ∧
    WsEffect.closeConnection ∈ onErrorEffects ∧
    onCloseEffects = [WsEffect.invokeOnClose] := by
  exact ⟨rfl, by decide, rfl⟩

/-- Claim C6 counterexample: a present resume cursor equal to 0 is falsy in JS, so
no cursor parameter is requested at all, refuting the claim for that
input. -/
theorem zero_cursor_param_cex :
    requestCursorParam (some 0) = none ∧
    requestCursorParam (some 0) ≠ some (0 - SAFETY_MARGIN) := by
  decide

/-- Claim C6 amended: for every connect with a present nonzero resume cursor, the
consumer requests resumption from exactly that cursor minus the 10-second
safety margin (10,000,000 microseconds). -/
theorem resume_cursor_safety_margin (c : Int) (h : c ≠ 0) :
    requestCursorParam (some c) = some (c - SAFETY_MARGIN) := by
  simp [requestCursorParam, h]

/-- Witness for claim C6 at a concrete nonzero cursor. -/
theorem resume_cursor_safety_margin_witness :
    (1723456789000000 : Int) ≠ 0 ∧
    requestCursorParam (some 1723456789000000) =
      some (1723456789000000 - SAFETY_MARGIN) :=
  ⟨by decide, resume_cursor_safety_margin 1723456789000000 (by decide)⟩

/-- Claim C10: the self-authorship exclusion applies only to the post branch: a
like created by the actor itself on one of its own records, and a follow
created by the actor naming itself as subject, are both relevant even
though the event author equals the agent DID. -/
theorem self_exclusion_only_posts (selfDid : String) (tracked : List TrackedThread)
    (rev rkeyL rkeyF u : String)
    (hu : strStartsWith u (selfUriBase selfDid) = true) :
    isRelevantEvent selfDid tracked
      { did := selfDid, time_us := 0, kind := EventKind.commit,
        commit := some
          { rev := rev, operation := Operation.create,
            collection := "app.bsky.feed.like", rkey := rkeyL,
            record := some
              { subjectDid := none, subjectUri := some u,
                facets := none, reply := none },
            cid := none } } = true ∧
    isRelevantEvent selfDid tracked
      { did := selfDid, time_us := 0, kind := EventKind.commit,
        commit := some
          { rev := rev, operation := Operation.create,
            collection := "app.bsky.graph.follow", rkey := rkeyF,
            record := some
              { subjectDid := some selfDid, subjectUri := none,
                facets := none, reply := none },
            cid := none } } = true := by
  constructor
  · simp [isRelevantEvent, Option.bind, hu]
  · simp [isRelevantEvent, Option.bind]

/-- Witness for claim C10: a concrete self-authored like of an own post. -/
theorem self_exclusion_only_posts_witness :
    strStartsWith "at://did:plc:wisp/app.bsky.feed.post/1"
      (selfUriBase "did:plc:wisp") = true ∧
    isRelevantEvent "did:plc:wisp" []
      { did := "did:plc:wisp", time_us := 0, kind := EventKind.commit,
        commit := some
          { rev := "r", operation := Operation.create,
            collection := "app.bsky.feed.like", rkey := "l",
            record := some
              { subjectDid := none,
                subjectUri := some "at://did:plc:wisp/app.bsky.feed.post/1",
                facets := none, reply := none },
            cid := none } } = true :=
  ⟨by decide,
   (self_exclusion_only_posts "did:plc:wisp" [] "r" "l" "f"
     "at://did:plc:wisp/app.bsky.feed.post/1" (by decide)).1⟩

theorem keyRows_map_update (root : String) (t : Nat) (tbl : List TrackedThread) :
    keyRows (tbl.map
        (fun r => if r.rootUri == root then { r with lastActivity := t } else r)) root
      = (keyRows tbl root).map (fun r => { r with lastActivity := t }) := by
  induction tbl with
  | nil => rfl
  | cons a l ih =>
    by_cases ha : a.rootUri = root
    · simp [keyRows, List.filter_cons, ha]
      simpa [keyRows] using ih
    · simp [keyRows, List.filter_cons, ha]
      simpa [keyRows] using ih

theorem upsert_keyRows (tbl : List TrackedThread) (root : String) (t : Nat)
    (h : (keyRows tbl root).length ≤ 1) :
    keyRows (upsertThread tbl root t) root
      = [{ rootUri := root, lastActivity := t }] := by
  unfold upsertThread
  cases hc : containsRoot tbl root with
  | false =>
    have hnil : keyRows tbl root = [] := by
      unfold containsRoot at hc
      unfold keyRows
      simp only [List.any_eq_false] at hc
      simp only [List.filter_eq_nil_iff]
      exact hc
    simp only [hc, Bool.false_eq_true, if_false]
    unfold keyRows at hnil ⊢
    rw [List.filter_append, hnil]
    simp
  | true =>
    simp only [hc, if_true]
    rw [keyRows_map_update]
    have hne : keyRows tbl root ≠ [] := by
      unfold containsRoot at hc
      simp only [List.any_eq_true] at hc
      obtain ⟨r, hrmem, hrkey⟩ := hc
      unfold keyRows
      intro hemp
      have : r ∈ tbl.filter (fun r => r.rootUri == root) :=
        List.mem_filter.mpr ⟨hrmem, hrkey⟩
      rw [hemp] at this
      exact List.not_mem_nil r this
    obtain ⟨r₀, hr₀⟩ : ∃ r₀, keyRows tbl root = [r₀] := by
      cases hk : keyRows tbl root with
      | nil => exact absurd hk hne
      | cons a l =>
        cases l with
        | nil => exact ⟨a, rfl⟩
        | cons b l2 =>
          rw [hk] at h
          simp at h
    have hr₀key : r₀.rootUri = root := by
      have : r₀ ∈ keyRows tbl root := by rw [hr₀]; exact List.mem_singleton_self r₀
      unfold keyRows at this
      have := List.of_mem_filter this
      simpa using this
    rw [hr₀]
    simp [hr₀key]

/-- Claim C9: calling `upsertThread` for the same root with `t1` then `t2` leaves
exactly one row for that root, carrying `lastActivity = t2` (idempotent,
last-write-wins), on any table satisfying the primary-key invariant. -/
theorem thread_upsert_last_write_wins (tbl : List TrackedThread) (root : String)
    (t1 t2 : Nat) (_h12 : t1 < t2) (hpk : (keyRows tbl root).length ≤ 1) :
    keyRows (upsertThread (upsertThread tbl root t1) root t2) root
      = [{ rootUri := root, lastActivity := t2 }] := by
  have h1 := upsert_keyRows tbl root t1 hpk
  have h2 : (keyRows (upsertThread tbl root t1) root).length ≤ 1 := by
    rw [h1]
    simp
  exact upsert_keyRows _ root t2 h2

/-- Witness for claim C9 on the empty table with timestamps 1 and 2. -/
theorem thread_upsert_last_write_wins_witness :
    (1 : Nat) < 2 ∧
    (keyRows ([] : List TrackedThread) "at://did:plc:wisp/app.bsky.feed.post/1").length ≤ 1 ∧
    keyRows (upsertThread (upsertThread ([] : List TrackedThread)
          "at://did:plc:wisp/app.bsky.feed.post/1" 1)
        "at://did:plc:wisp/app.bsky.feed.post/1" 2)
      "at://did:plc:wisp/app.bsky.feed.post/1"
      = [{ rootUri := "at://did:plc:wisp/app.bsky.feed.post/1", lastActivity := 2 }] :=
  ⟨by decide, by decide,
   thread_upsert_last_write_wins [] "at://did:plc:wisp/app.bsky.feed.post/1" 1 2
     (by decide) (by decide)⟩

/-- Claim C7 counterexample: a relevant reply authored by another user (its parent
is a post of the agent) reaches `handleEvent` and fires the tracked-threads
upsert, although the reply is not actor-authored — refuting the claim that
the upsert happens only for actor-authored replies. -/
theorem tracked_upsert_other_author_cex :
    isRelevantEvent "did:plc:wisp" [] otherAuthoredReply = true ∧
    handleEventUpsertRoot otherAuthoredReply
      = some "at://did:plc:carol/app.bsky.feed.post/9" ∧
    otherAuthoredReply.did ≠ "did:plc:wisp" := by
  decide

/-- Claim C7 amended: the upsert fires exactly for handled commit events in the
post collection whose record carries a reply-root URI; and in the stream
path the handled post events are the relevant ones, which are never
actor-authored (a post authored by the agent itself is never relevant). -/
theorem tracked_upsert_characterization :
    (∀ (e : JetstreamEvent) (r : String),
      handleEventUpsertRoot e = some r ↔
        (e.kind = EventKind.commit ∧ ∃ c, e.commit = some c ∧
          c.collection = "app.bsky.feed.post" ∧ ∃ rec, c.record = some rec ∧
          ∃ rep, rec.reply = some rep ∧ rep.rootUri = some r)) ∧
    (∀ (selfDid : String) (tracked : List TrackedThread) (e : JetstreamEvent)
        (c : Commit), e.commit = some c → c.collection = "app.bsky.feed.post" →
        e.did = selfDid → isRelevantEvent selfDid tracked e = false) := by
  constructor
  · intro e r
    rcases e with ⟨did, t, kind, commit⟩
    cases kind <;> simp [handleEventUpsertRoot]
    rcases commit with _ | c
    · simp [handleEventUpsertRoot]
    · by_cases hcol : c.collection = "app.bsky.feed.post"
      · simp [handleEventUpsertRoot, hcol, Option.bind_eq_some]
      · simp [handleEventUpsertRoot, hcol]
  · intro selfDid tracked e c hc hcol hdid
    rcases e with ⟨did, t, kind, commit⟩
    simp only at hc hdid
    subst hc hdid
    rcases c with ⟨rev, op, col, rkey, record, cid⟩
    simp only at hcol
    subst hcol
    cases kind <;> cases op <;> simp [isRelevantEvent]
    rcases record with _ | rec <;> simp

/-- Claim C7 witness for the amended theorem: a reply post authored by the agent
itself is never relevant, so the stream path never hands it to
`handleEvent`. -/
theorem tracked_upsert_characterization_witness :
    isRelevantEvent "did:plc:wisp" [] selfAuthoredReply = false :=
  tracked_upsert_characterization.2 "did:plc:wisp" [] selfAuthoredReply
    selfAuthoredReplyCommit rfl rfl rfl

/-- Claim C2: for post-create commit events, `isRelevantEvent` agrees exactly with
the decision-table row of the spec. -/
theorem post_create_relevance_iff (selfDid : String) (tracked : List TrackedThread)
    (e : JetstreamEvent) (c : Commit)
    (hk : e.kind = EventKind.commit) (hc : e.commit = some c)
    (hop : c.operation = Operation.create)
    (hcol : c.collection = "app.bsky.feed.post") :
    isRelevantEvent selfDid tracked e = true ↔
      postCreateRelevantSpec selfDid tracked e.did c.record = true := by
  rcases e with ⟨did, t, kind, commit⟩
  simp only at hk hc
  subst hk hc
  rcases c with ⟨rev, op, col, rkey, record, cid⟩
  simp only at hop hcol
  subst hop hcol
  simp only [isRelevantEvent, postCreateRelevantSpec]
  rcases record with _ | rec
  · simp
  · cases hdid : (did == selfDid) with
    | true =>
      have heq : did = selfDid := by simpa using hdid
      subst heq
      simp
    | false =>
      simp only [bne, hdid, Bool.not_false, Bool.true_and, Bool.false_eq_true,
        if_false]
      cases hm : mentionsSelf (rec.facets.getD []) selfDid with
      | true => simp [hm]
      | false =>
        cases hrep : rec.reply with
        | none => simp [hm, hrep]
        | some rep =>
          rcases rep with ⟨pUri, rUri⟩
          rcases pUri with _ | up <;> rcases rUri with _ | ur
          · simp [hm, hrep]
          · cases hr : strStartsWith ur (selfUriBase selfDid) <;>
              simp [hm, hrep, hr]
          · cases hp : strStartsWith up (selfUriBase selfDid) <;>
              simp [hm, hrep, hp]
          · cases hp : strStartsWith up (selfUriBase selfDid) <;>
              cases hr : strStartsWith ur (selfUriBase selfDid) <;>
                simp [hm, hrep, hp, hr]

/-- Claim C2 witness: the end-to-end scenario — a reply whose root is a tracked
thread is relevant even though neither parent nor root addresses the
agent. -/
theorem post_create_relevance_iff_witness :
    isRelevantEvent "did:plc:wisp" sampleTrackedTbl trackedReplyEvent = true :=
  (post_create_relevance_iff "did:plc:wisp" sampleTrackedTbl trackedReplyEvent
      trackedReplyCommit rfl rfl rfl rfl).mpr (by decide)

/-- Claim C8: on an alarm tick, the reflection task runs iff
`now - last_reflection > REFLECTION_INTERVAL`; when due, the durable
`last_reflection := now` write immediately precedes the task body, and when
not due the stored timestamp is untouched and the body does not run. -/
theorem reflection_due_persist_before_run (st : SchedState)
    (wsOpen pendingNotes : Bool) (now : Nat) :
    (now - st.lastReflection.getD 0 > REFLECTION_INTERVAL →
      (∃ pre post, (alarmTick st wsOpen pendingNotes now).2 =
          pre ++ AlarmAction.persistLastReflection now ::
            AlarmAction.runReflection :: post) ∧
      (alarmTick st wsOpen pendingNotes now).1.lastReflection = some now) ∧
    (¬ now - st.lastReflection.getD 0 > REFLECTION_INTERVAL →
      AlarmAction.runReflection ∉ (alarmTick st wsOpen pendingNotes now).2 ∧
      (alarmTick st wsOpen pendingNotes now).1.lastReflection
        = st.lastReflection) := by
  constructor
  · intro hdue
    refine ⟨?_, ?_⟩
    · refine ⟨(if wsOpen then [] else [AlarmAction.reconnect]) ++
        [AlarmAction.pollAdminDms], ?_, ?_⟩
      · exact (if now - st.lastThinking.getD 0 > THINKING_INTERVAL then
          (if pendingNotes then
            [AlarmAction.persistLastThinking now, AlarmAction.runThinking]
          else []) else []) ++
          [AlarmAction.scheduleAlarm (now + DM_POLL_INTERVAL)]
      · simp only [alarmTick, runThinkingTimeStep, hdue, if_true]
        cases wsOpen <;> cases pendingNotes <;>
          by_cases hth : now - st.lastThinking.getD 0 > THINKING_INTERVAL <;>
            simp [hth]
    · simp only [alarmTick, runThinkingTimeStep, hdue, if_true]
      by_cases hth : now - st.lastThinking.getD 0 > THINKING_INTERVAL <;>
        cases pendingNotes <;> simp [hth]
  · intro hdue
    constructor
    · simp only [alarmTick, runThinkingTimeStep, hdue, if_false]
      cases wsOpen <;> cases pendingNotes <;>
        by_cases hth : now - st.lastThinking.getD 0 > THINKING_INTERVAL <;>
          simp [hth]
    · simp only [alarmTick, runThinkingTimeStep, hdue, if_false]
      by_cases hth : now - st.lastThinking.getD 0 > THINKING_INTERVAL <;>
        cases pendingNotes <;> simp [hth]

/-- Witness for claim C8 at a concrete due tick. -/
theorem reflection_due_persist_before_run_witness :
    ((30000000 : Nat) - (Option.some 0 : Option Nat).getD 0 > REFLECTION_INTERVAL) ∧
    ((∃ pre post,
        (alarmTick { lastReflection := some 0, lastThinking := some 0 }
            true false 30000000).2 =
          pre ++ AlarmAction.persistLastReflection 30000000 ::
            AlarmAction.runReflection :: post) ∧
      (alarmTick { lastReflection := some 0, lastThinking := some 0 }
          true false 30000000).1.lastReflection = some 30000000) :=
  ⟨by decide,
   (reflection_due_persist_before_run
       { lastReflection := some 0, lastThinking := some 0 }
       true false 30000000).1 (by decide)⟩

theorem countPersists_append (a b : List AgentAction) :
    countPersists (a ++ b) = countPersists a + countPersists b := by
  simp [countPersists, List.filter_append]

theorem maybePersist_nofire (st : AgentState) (now : Nat)
    (h : ¬ now - st.lastCursorPersist > CURSOR_PERSIST_INTERVAL) :
    maybePersistCursor st now = (st, []) := by
  unfold maybePersistCursor
  rw [if_neg h]

theorem maybePersist_count_le_one (st : AgentState) (now : Nat) :
    countPersists (maybePersistCursor st now).2 ≤ 1 := by
  by_cases h : now - st.lastCursorPersist > CURSOR_PERSIST_INTERVAL
  · simp only [maybePersistCursor, if_pos h]
    cases st.cursor with
    | none => simp [countPersists]
    | some v =>
      by_cases hv : v ≠ 0
      · simp [hv, countPersists, isPersistAction]
      · simp [hv, countPersists]
  · simp [maybePersistCursor, if_neg h, countPersists]

theorem maybePersist_last (st : AgentState) (now : Nat) :
    (maybePersistCursor st now).1.lastCursorPersist =
      if now - st.lastCursorPersist > CURSOR_PERSIST_INTERVAL then now
      else st.lastCursorPersist := by
  by_cases h : now - st.lastCursorPersist > CURSOR_PERSIST_INTERVAL
  · simp only [maybePersistCursor, if_pos h]
    cases st.cursor with
    | none => rfl
    | some v =>
      by_cases hv : v ≠ 0
      · simp [hv]
      · simp [hv]
  · simp [maybePersistCursor, if_neg h]

theorem onEvent_countPersists (s : String) (tr : List TrackedThread)
    (st : AgentState) (e : JetstreamEvent) (now : Nat) :
    countPersists (onEvent s tr st e now).2 =
      countPersists (maybePersistCursor (recvState st e) now).2 := by
  unfold onEvent recvState
  split <;> simp [countPersists, List.filter_append, isPersistAction]

theorem onEvent_last (s : String) (tr : List TrackedThread)
    (st : AgentState) (e : JetstreamEvent) (now : Nat) :
    (onEvent s tr st e now).1.lastCursorPersist =
      (maybePersistCursor (recvState st e) now).1.lastCursorPersist := by
  unfold onEvent recvState
  split <;> rfl

theorem recvState_last (st : AgentState) (e : JetstreamEvent) :
    (recvState st e).lastCursorPersist = st.lastCursorPersist := rfl

theorem run_nofire (s : String) (tr : List TrackedThread) (t0 : Nat) :
    ∀ (evs : List (JetstreamEvent × Nat)) (st : AgentState),
      t0 ≤ st.lastCursorPersist →
      (∀ p ∈ evs, t0 ≤ p.2 ∧ p.2 < t0 + CURSOR_PERSIST_INTERVAL) →
      countPersists (runOnEvents s tr st evs).2 = 0 := by
  intro evs
  induction evs with
  | nil => intro st _ _; simp [runOnEvents, countPersists]
  | cons p rest ih =>
    intro st hst hwin
    obtain ⟨e, now⟩ := p
    have hw := hwin (e, now) (List.mem_cons_self _ _)
    have hnofire : ¬ now - (recvState st e).lastCursorPersist >
        CURSOR_PERSIST_INTERVAL := by
      rw [recvState_last]
      omega
    simp only [runOnEvents, countPersists_append]
    have hmp := maybePersist_nofire (recvState st e) now hnofire
    have hcount : countPersists (onEvent s tr st e now).2 = 0 := by
      rw [onEvent_countPersists, hmp]
      rfl
    have hlast : (onEvent s tr st e now).1.lastCursorPersist
        = st.lastCursorPersist := by
      rw [onEvent_last, hmp]
      rfl
    rw [hcount]
    have := ih (onEvent s tr st e now).1 (hlast ▸ hst)
      (fun q hq => hwin q (List.mem_cons_of_mem _ hq))
    omega

/-- Claim C5: for any run of events whose arrival times all fall inside one window
shorter than the persist interval, `maybePersistCursor` — called once per
event — performs at most one durable cursor write. -/
theorem cursor_persist_rate_limited (selfDid : String)
    (tracked : List TrackedThread) (st : AgentState) (t0 : Nat)
    (evs : List (JetstreamEvent × Nat))
    (hwin : ∀ p ∈ evs, t0 ≤ p.2 ∧ p.2 < t0 + CURSOR_PERSIST_INTERVAL) :
    countPersists (runOnEvents selfDid tracked st evs).2 ≤ 1 := by
  induction evs generalizing st with
  | nil => simp [runOnEvents, countPersists]
  | cons p rest ih =>
    obtain ⟨e, now⟩ := p
    have hw := hwin (e, now) (List.mem_cons_self _ _)
    have hwrest : ∀ q ∈ rest, t0 ≤ q.2 ∧ q.2 < t0 + CURSOR_PERSIST_INTERVAL :=
      fun q hq => hwin q (List.mem_cons_of_mem _ hq)
    simp only [runOnEvents, countPersists_append]
    by_cases hfire : now - st.lastCursorPersist > CURSOR_PERSIST_INTERVAL
    · have hhead : countPersists (onEvent selfDid tracked st e now).2 ≤ 1 := by
        rw [onEvent_countPersists]
        exact maybePersist_count_le_one _ _
      have hlast : (onEvent selfDid tracked st e now).1.lastCursorPersist = now := by
        rw [onEvent_last, maybePersist_last, recvState_last, if_pos hfire]
      have htail : countPersists
          (runOnEvents selfDid tracked (onEvent selfDid tracked st e now).1 rest).2
            = 0 :=
        run_nofire selfDid tracked t0 rest _ (by rw [hlast]; exact hw.1) hwrest
      omega
    · have hmp := maybePersist_nofire (recvState st e) now
        (by rw [recvState_last]; exact hfire)
      have hhead : countPersists (onEvent selfDid tracked st e now).2 = 0 := by
        rw [onEvent_countPersists, hmp]
        rfl
      have := ih (onEvent selfDid tracked st e now).1 hwrest
      omega

/-- Witness for claim C5: three events inside one persist window. -/
theorem cursor_persist_rate_limited_witness :
    (∀ p ∈ [(sampleFollowEvent 100, 40000), (sampleFollowEvent 200, 41000),
        (sampleFollowEvent 300, 69000)],
      40000 ≤ p.2 ∧ p.2 < 40000 + CURSOR_PERSIST_INTERVAL) ∧
    countPersists (runOnEvents "did:plc:wisp" [] initAgentState
      [(sampleFollowEvent 100, 40000), (sampleFollowEvent 200, 41000),
       (sampleFollowEvent 300, 69000)]).2 ≤ 1 :=
  ⟨by decide,
   cursor_persist_rate_limited "did:plc:wisp" [] initAgentState 40000
     [(sampleFollowEvent 100, 40000), (sampleFollowEvent 200, 41000),
      (sampleFollowEvent 300, 69000)] (by decide)⟩

/-- Claim C1 counterexample: in a reachable run (two relevant follow events, both
past the persist interval), the durable write of cursor 200 is emitted
before `eventProcessed 200` — the cursor of an event is persisted before
the processing of that event completes, while the most recently fully processed
event has logical time 100 < 200. -/
theorem cursor_persisted_before_processing_cex :
    ((onEvent "did:plc:wisp" [] initAgentState
        (sampleFollowEvent 100) 40000).1.lastProcessed = some 100) ∧
    ((onEvent "did:plc:wisp" []
        (onEvent "did:plc:wisp" [] initAgentState (sampleFollowEvent 100) 40000).1
        (sampleFollowEvent 200) 80000).2
      = [AgentAction.persistCursor 200, AgentAction.eventProcessed 200]) ∧
    ((onEvent "did:plc:wisp" []
        (onEvent "did:plc:wisp" [] initAgentState (sampleFollowEvent 100) 40000).1
        (sampleFollowEvent 200) 80000).1.persisted = some 200) := by
  decide

theorem onEvent_cursor (s : String) (tr : List TrackedThread)
    (st : AgentState) (e : JetstreamEvent) (now : Nat) :
    (onEvent s tr st e now).1.cursor = some e.time_us := by
  unfold onEvent maybePersistCursor
  dsimp only
  repeat' split
  all_goals simp

theorem onEvent_persisted (s : String) (tr : List TrackedThread)
    (st : AgentState) (e : JetstreamEvent) (now : Nat) :
    (onEvent s tr st e now).1.persisted = st.persisted ∨
      (onEvent s tr st e now).1.persisted = some e.time_us := by
  unfold onEvent maybePersistCursor
  dsimp only
  repeat' split
  all_goals simp

/-- Claim C1 amended: along any trace of events with nondecreasing logical times,
the persisted durable cursor never exceeds the in-memory cursor — the
`time_us` of the most recently *received* event (it may, however, be
persisted before the processing of that event completes). -/
theorem persisted_cursor_le_last_received (selfDid : String)
    (tracked : List TrackedThread) (evs : List (JetstreamEvent × Nat))
    (hsorted : List.Pairwise
      (fun p q : JetstreamEvent × Nat => p.1.time_us ≤ q.1.time_us) evs) :
    persistedLeCursor (runOnEvents selfDid tracked initAgentState evs).1 := by
  have main : ∀ (l : List (JetstreamEvent × Nat)) (st : AgentState),
      List.Pairwise (fun p q : JetstreamEvent × Nat =>
        p.1.time_us ≤ q.1.time_us) l →
      (∀ q ∈ l, ∀ cv, st.cursor = some cv → cv ≤ q.1.time_us) →
      persistedLeCursor st →
      persistedLeCursor (runOnEvents selfDid tracked st l).1 := by
    intro l
    induction l with
    | nil => intro st _ _ hinv; simpa [runOnEvents] using hinv
    | cons p rest ih =>
      intro st hpw hcur hinv
      obtain ⟨e, now⟩ := p
      cases hpw with
      | cons hrel htail =>
        simp only [runOnEvents]
        apply ih _ htail
        · intro q hq cv hcv
          rw [onEvent_cursor] at hcv
          cases hcv
          exact hrel q hq
        · rcases onEvent_persisted selfDid tracked st e now with hp | hp
          · unfold persistedLeCursor
            rw [hp, onEvent_cursor]
            cases hsp : st.persisted with
            | none => trivial
            | some v =>
              unfold persistedLeCursor at hinv
              rw [hsp] at hinv
              cases hsc : st.cursor with
              | none => rw [hsc] at hinv; exact absurd hinv not_false
              | some cv =>
                rw [hsc] at hinv
                exact le_trans hinv
                  (hcur (e, now) (List.mem_cons_self _ _) cv hsc)
          · unfold persistedLeCursor
            rw [hp, onEvent_cursor]
  exact main evs initAgentState hsorted
    (by intro q hq cv hcv; cases hcv) (by trivial)

/-- Witness for claim C1 (amended) on a concrete two-event trace. -/
theorem persisted_cursor_le_last_received_witness :
    List.Pairwise (fun p q : JetstreamEvent × Nat => p.1.time_us ≤ q.1.time_us)
      [(sampleFollowEvent 100, 40000), (sampleFollowEvent 200, 80000)] ∧
    persistedLeCursor (runOnEvents "did:plc:wisp" [] initAgentState
      [(sampleFollowEvent 100, 40000), (sampleFollowEvent 200, 80000)]).1 :=
  ⟨by simp [List.pairwise_cons, sampleFollowEvent],
   persisted_cursor_le_last_received "did:plc:wisp" []
     [(sampleFollowEvent 100, 40000), (sampleFollowEvent 200, 80000)]
     (by simp [List.pairwise_cons, sampleFollowEvent])⟩

end Wisp
